import Mathlib

/-!
Verification of the Yatube blog application specification.

The repository ships only its test suite and one migration under version
control here; the application code (models, views, forms) is absent, so the
operations below are modelled from the specification's words (each such
definition says so in its doc comment) and checked against the behaviours the
tests exercise.

Users are identified by numeric ids, groups by id and slug.  Post and comment
collections are kept newest-first, matching the spec's "queryset ordered by
recency" and the tests' use of `objects.first()` for the latest record.
-/

namespace Yatube

/-- A named category posts can belong to (title, slug, description). -/
structure Group where
  id : Nat
  title : String
  slug : String
  description : String
  deriving DecidableEq, Repr

/-- A text entry owned by exactly one author, optionally attached to one
Group (nullable), optionally carrying one image, timestamped on creation. -/
structure Post where
  id : Nat
  text : String
  author : Nat
  group : Option Nat
  image : Option String
  created : Nat
  deriving DecidableEq, Repr

/-- A text entry owned by exactly one author, attached to exactly one Post,
timestamped on creation. -/
structure Comment where
  id : Nat
  text : String
  author : Nat
  post : Nat
  created : Nat
  deriving DecidableEq, Repr

/-- A directed edge between two users: follower `user` → followed `author`. -/
structure Follow where
  user : Nat
  author : Nat
  deriving DecidableEq, Repr

/-- The persisted state of the application: the relational tables.  Post and
Comment lists are ordered by recency (newest first); `nextId` supplies fresh
ids and creation timestamps. -/
structure BlogState where
  users : List Nat
  groups : List Group
  posts : List Post
  comments : List Comment
  follows : List Follow
  nextId : Nat
  deriving DecidableEq, Repr

/-- HTTP routes exercised by the application, as listed in the spec's
external-interfaces section. -/
inductive Route where
  | index : Route
  | groupList : String → Route
  | profile : Nat → Route
  | postDetail : Nat → Route
  | postCreate : Route
  | postEdit : Nat → Route
  | addComment : Nat → Route
  | profileFollow : Nat → Route
  | profileUnfollow : Nat → Route
  | followIndex : Route
  deriving DecidableEq, Repr

/-- View responses.  `redirectLogin next` models the 302 redirect of an
unauthenticated request to the login/registration URL carrying the attempted
route as its `next` parameter. -/
inductive Response where
  | redirect : Route → Response
  | redirectLogin : Route → Response
  | rendered : Response
  | formError : Response
  | notFound : Response
  deriving DecidableEq, Repr

/-- HTTP status code of a response: redirects are 302. -/
def Response.statusCode : Response → Nat
  | .redirect _ => 302
  | .redirectLogin _ => 302
  | .rendered => 200
  | .formError => 200
  | .notFound => 404

/-- Modelled from the spec: pagination is a fixed page-size slice of 10 items
per page over a queryset. -/
def POSTS_PER_PAGE : Nat := 10

/-- Modelled from the spec: return the bounded page of 10 items numbered
`page` (1-based) of a queryset. -/
def paginate {α : Type} (items : List α) (page : Nat) : List α :=
  ((items.drop ((page - 1) * POSTS_PER_PAGE)).take POSTS_PER_PAGE)

/-- Modelled from the spec: the index listing's queryset is all Posts ordered
by recency. -/
def indexPage (s : BlogState) (page : Nat) : List Post :=
  paginate s.posts page

/-- Modelled from the spec: group-scoped listing filters the Post set by
group slug before paginating. -/
def groupPage (s : BlogState) (slug : String) (page : Nat) : List Post :=
  match s.groups.find? (fun g => g.slug == slug) with
  | some g => paginate (s.posts.filter (fun p => p.group == some g.id)) page
  | none => []

/-- Modelled from the spec: author-scoped listing filters the Post set by
author before paginating. -/
def profilePage (s : BlogState) (author : Nat) (page : Nat) : List Post :=
  paginate (s.posts.filter (fun p => p.author == author)) page

/-- Modelled from the spec (missing views/forms code): the post-create view.
Requires authentication (anonymous requests are redirected to the
login/registration URL with a `next` parameter); validates non-empty text and
that an optional group selection references an existing Group; on success
persists the new Post owned by the current user and redirects to the
author's profile page. -/
def createPost (auth : Option Nat) (text : String) (group : Option Nat)
    (image : Option String) (s : BlogState) : Response × BlogState :=
  match auth with
  | none => (.redirectLogin .postCreate, s)
  | some u =>
    if text = "" then (.formError, s)
    else
      match group with
      | some g =>
        if s.groups.any (fun gr => gr.id == g) then
          (.redirect (.profile u),
           { s with
               posts := ⟨s.nextId, text, u, some g, image, s.nextId⟩ :: s.posts,
               nextId := s.nextId + 1 })
        else (.formError, s)
      | none =>
        (.redirect (.profile u),
         { s with
             posts := ⟨s.nextId, text, u, none, image, s.nextId⟩ :: s.posts,
             nextId := s.nextId + 1 })

/-- Modelled from the spec (missing views/forms code): the post-edit view.
Anonymous requests are redirected to the login/registration URL with a `next`
parameter.  Edit is authorized only for the Post's author: an authenticated
non-author is redirected to the post detail page without mutation.  The
author submitting valid non-empty text updates the Post in place and is
redirected to the detail page. -/
def editPost (auth : Option Nat) (postId : Nat) (text : String)
    (group : Option Nat) (s : BlogState) : Response × BlogState :=
  match auth with
  | none => (.redirectLogin (.postEdit postId), s)
  | some u =>
    match s.posts.find? (fun p => p.id == postId) with
    | none => (.notFound, s)
    | some p =>
      if p.author ≠ u then (.redirect (.postDetail postId), s)
      else if text = "" then (.formError, s)
      else
        (.redirect (.postDetail postId),
         { s with
             posts := s.posts.map (fun q =>
               if q.id == postId then { q with text := text, group := group }
               else q) })

/-- Modelled from the spec (missing views/forms code): the add-comment view.
Requires authentication (anonymous requests are redirected to the
login/registration URL with a `next` parameter); validates non-empty text; on
success appends a Comment owned by the current user to the target Post and
redirects to the post detail page. -/
def addComment (auth : Option Nat) (postId : Nat) (text : String)
    (s : BlogState) : Response × BlogState :=
  match auth with
  | none => (.redirectLogin (.addComment postId), s)
  | some u =>
    if s.posts.any (fun p => p.id == postId) then
      if text = "" then (.formError, s)
      else
        (.redirect (.postDetail postId),
         { s with
             comments := ⟨s.nextId, text, u, postId, s.nextId⟩ :: s.comments,
             nextId := s.nextId + 1 })
    else (.notFound, s)

/-- Modelled from the spec (missing views code): `profile_follow` creates a
Follow edge from the current user to the target author and redirects to that
author's profile (idempotency/self-follow policy is flagged unspecified by
the spec; the edge is simply created). -/
def profileFollow (auth : Option Nat) (author : Nat) (s : BlogState) :
    Response × BlogState :=
  match auth with
  | none => (.redirectLogin (.profileFollow author), s)
  | some u =>
    (.redirect (.profile author), { s with follows := ⟨u, author⟩ :: s.follows })

/-- Modelled from the spec (missing views code): `profile_unfollow` removes
the corresponding Follow edge and redirects to the author's profile. -/
def profileUnfollow (auth : Option Nat) (author : Nat) (s : BlogState) :
    Response × BlogState :=
  match auth with
  | none => (.redirectLogin (.profileUnfollow author), s)
  | some u =>
    (.redirect (.profile author),
     { s with
         follows := s.follows.filter (fun f =>
           !(f.user == u && f.author == author)) })

/-- Modelled from the spec (missing views code): the `follow_index` queryset —
Posts authored by anyone the current user follows, ordered by recency. -/
def followFeed (user : Nat) (s : BlogState) : List Post :=
  s.posts.filter (fun p =>
    s.follows.any (fun f => f.user == user && f.author == p.author))

/-- Modelled from the spec (missing views code): `follow_index` paginates the
follow feed as the other listings do. -/
def followIndexPage (user : Nat) (s : BlogState) (page : Nat) : List Post :=
  paginate (followFeed user s) page

/-- Modelled from the spec: deleting a Post removes it and cascades to delete
its Comments. -/
def deletePost (postId : Nat) (s : BlogState) : BlogState :=
  { s with
      posts := s.posts.filter (fun p => p.id != postId),
      comments := s.comments.filter (fun c => c.post != postId) }

/-- Group deletion nulls out referencing Posts' `group` field rather than
deleting the Posts, per the ON DELETE SET NULL migration
(0004_auto_20210921_2246: `on_delete=SET_NULL, null=True`). -/
def deleteGroup (groupId : Nat) (s : BlogState) : BlogState :=
  { s with
      groups := s.groups.filter (fun g => g.id != groupId),
      posts := s.posts.map (fun p =>
        if p.group == some groupId then { p with group := none } else p) }

/-- Modelled from the spec: the index listing's full-page cache timeout is a
fixed 20 seconds. -/
def CACHE_TIMEOUT : Nat := 20

/-- A cache entry for the index route: the rendered content (abstracted as
the sequence of Posts on page 1) together with the second it was stored. -/
structure CacheEntry where
  content : List Post
  storedAt : Nat
  deriving DecidableEq, Repr

/-- Modelled from the spec: the rendered output of the index listing,
abstracted as its first page of Posts. -/
def renderIndex (s : BlogState) : List Post :=
  indexPage s 1

/-- Modelled from the spec: serving the index route through the full-page
cache.  Within `CACHE_TIMEOUT` seconds of the stored entry the cached content
is returned even if the underlying data changed; otherwise (or with an empty
cache, e.g. right after manual invalidation) the page is rendered fresh and
stored. -/
def getIndex (now : Nat) (cache : Option CacheEntry) (s : BlogState) :
    List Post × Option CacheEntry :=
  match cache with
  | some e =>
    if now < e.storedAt + CACHE_TIMEOUT then (e.content, some e)
    else (renderIndex s, some ⟨renderIndex s, now⟩)
  | none => (renderIndex s, some ⟨renderIndex s, now⟩)

/-- Modelled from the spec: manual cache invalidation clears the cache
immediately. -/
def cacheClear : Option CacheEntry := none

/-- A sample group (mirroring the tests' fixture with slug `test-slug`). -/
def sampleGroup : Group := ⟨1, "Title", "test-slug", "desc"⟩

/-- A sample post authored by user 1 in `sampleGroup`. -/
def samplePost : Post := ⟨1, "hello", 1, some 1, none, 1⟩

/-- A sample state with two users, one group and one post. -/
def sampleState : BlogState := ⟨[1, 2], [sampleGroup], [samplePost], [], [], 2⟩

/-- A sample comment by user 2 on `samplePost`. -/
def sampleComment : Comment := ⟨1, "first", 2, 1, 2⟩

/-- A sample state extending `sampleState` with `sampleComment`. -/
def commentState : BlogState :=
  ⟨[1, 2], [sampleGroup], [samplePost], [sampleComment], [], 3⟩

/-- A state holding thirteen posts, all by author 1 in `sampleGroup`,
mirroring the paginator test fixture. -/
def thirteenState : BlogState :=
  ⟨[1], [sampleGroup],
   (List.range 13).map (fun i => ⟨i, "t", 1, some 1, none, i⟩), [], [], 13⟩

/-- Length of a page: the page-size slice of what remains past the skipped
pages. -/
theorem paginate_length {α : Type} (l : List α) (page : Nat) :
    (paginate l page).length
      = min POSTS_PER_PAGE (l.length - (page - 1) * POSTS_PER_PAGE) := by
  simp [paginate]

/-- Every element of a page comes from the underlying queryset. -/
theorem paginate_subset {α : Type} (l : List α) (page : Nat) :
    paginate l page ⊆ l :=
  fun _ h => (l.drop_subset _) ((List.take_subset _ _) h)

/-- Mapping an id-preserving update over a list commutes with looking a
record up by id. -/
theorem find_map_of_update (l : List Post) (pid : Nat) (p : Post)
    (f : Post → Post) (hf : ∀ q, (f q).id = q.id)
    (h : l.find? (fun q => q.id == pid) = some p) :
    (l.map f).find? (fun q => q.id == pid) = some (f p) := by
  induction l with
  | nil => simp at h
  | cons a l ih =>
    cases hb : (a.id == pid) with
    | true =>
      rw [List.find?_cons] at h
      simp only [hb] at h
      cases h
      rw [List.map_cons, List.find?_cons]
      simp only [hf, hb]
    | false =>
      rw [List.find?_cons] at h
      simp only [hb] at h
      rw [List.map_cons, List.find?_cons]
      simp only [hf, hb]
      exact ih h

/-- C1: an authenticated user submitting the create form with non-empty text,
an existing group id and an image grows the Post table by exactly one, the
new record's text, group and author equal the submitted values and the
current user, and the response redirects to that user's profile page. -/
theorem c1_create_post_valid (u : Nat) (text : String) (g : Nat) (img : String)
    (s : BlogState) (htext : text ≠ "")
    (hg : s.groups.any (fun gr => gr.id == g) = true) :
    (createPost (some u) text (some g) (some img) s).2.posts.length
        = s.posts.length + 1
    ∧ (∃ p, (createPost (some u) text (some g) (some img) s).2.posts.head?
              = some p
          ∧ p.text = text ∧ p.group = some g ∧ p.author = u
          ∧ p.image = some img)
    ∧ (createPost (some u) text (some g) (some img) s).1
        = Response.redirect (Route.profile u) := by
  simp [createPost, htext, hg]

/-- C1 witness: the theorem applied at a concrete valid submission. -/
theorem c1_create_post_valid_witness :
    (createPost (some 1) "new text" (some 1) (some "small.gif")
        sampleState).2.posts.length = sampleState.posts.length + 1
    ∧ (∃ p, (createPost (some 1) "new text" (some 1) (some "small.gif")
               sampleState).2.posts.head? = some p
          ∧ p.text = "new text" ∧ p.group = some 1 ∧ p.author = 1
          ∧ p.image = some "small.gif")
    ∧ (createPost (some 1) "new text" (some 1) (some "small.gif")
         sampleState).1 = Response.redirect (Route.profile 1) :=
  c1_create_post_valid 1 "new text" 1 "small.gif" sampleState
    (by decide) (by decide)

/-- C9: an unauthenticated request to any of the mutating routes (post
creation, post edit, comment creation) leaves the state unchanged and is
answered with an HTTP 302 redirect to the login/registration URL carrying the
attempted route as its `next` parameter. -/
theorem c9_anonymous_mutations_redirect (s : BlogState) (postId : Nat)
    (text : String) (g : Option Nat) (img : Option String) :
    createPost none text g img s = (.redirectLogin .postCreate, s)
    ∧ editPost none postId text g s = (.redirectLogin (.postEdit postId), s)
    ∧ addComment none postId text s = (.redirectLogin (.addComment postId), s)
    ∧ (Response.redirectLogin Route.postCreate).statusCode = 302
    ∧ (Response.redirectLogin (Route.postEdit postId)).statusCode = 302
    ∧ (Response.redirectLogin (Route.addComment postId)).statusCode = 302 :=
  ⟨rfl, rfl, rfl, rfl, rfl, rfl⟩

/-- C2: over a queryset of 13 Posts, each listing view (index, group listing
by slug, profile by author) shows exactly 10 items on page 1 and exactly 3
on page 2; in general every page is bounded by the fixed page size of 10. -/
theorem c2_pagination (s : BlogState) (slug : String) (g : Group) (u : Nat)
    (hfind : s.groups.find? (fun gr => gr.slug == slug) = some g)
    (h13 : s.posts.length = 13)
    (hg13 : (s.posts.filter (fun p => p.group == some g.id)).length = 13)
    (hu13 : (s.posts.filter (fun p => p.author == u)).length = 13) :
    ((indexPage s 1).length = 10 ∧ (indexPage s 2).length = 3)
    ∧ ((groupPage s slug 1).length = 10 ∧ (groupPage s slug 2).length = 3)
    ∧ ((profilePage s u 1).length = 10 ∧ (profilePage s u 2).length = 3)
    ∧ (∀ (l : List Post) (page : Nat),
        (paginate l page).length ≤ POSTS_PER_PAGE) := by
  refine ⟨⟨?_, ?_⟩, ⟨?_, ?_⟩, ⟨?_, ?_⟩, fun l page => ?_⟩ <;>
    simp only [indexPage, groupPage, profilePage, hfind, paginate_length,
      h13, hg13, hu13, POSTS_PER_PAGE] <;>
    omega

/-- C2 witness: the theorem applied at the thirteen-post fixture state. -/
theorem c2_pagination_witness :
    ((indexPage thirteenState 1).length = 10
      ∧ (indexPage thirteenState 2).length = 3)
    ∧ ((groupPage thirteenState "test-slug" 1).length = 10
      ∧ (groupPage thirteenState "test-slug" 2).length = 3)
    ∧ ((profilePage thirteenState 1 1).length = 10
      ∧ (profilePage thirteenState 1 2).length = 3)
    ∧ (∀ (l : List Post) (page : Nat),
        (paginate l page).length ≤ POSTS_PER_PAGE) :=
  c2_pagination thirteenState "test-slug" sampleGroup 1
    (by decide) (by decide) (by decide) (by decide)

/-- C3: an authenticated user posting non-empty text to the add-comment
route of an existing Post grows the Comment table by exactly one, the new
Comment's author is the current user and its post the target Post, and the
response redirects to that Post's detail page. -/
theorem c3_add_comment_valid (u postId : Nat) (text : String) (s : BlogState)
    (hpost : s.posts.any (fun p => p.id == postId) = true)
    (htext : text ≠ "") :
    (addComment (some u) postId text s).2.comments.length
        = s.comments.length + 1
    ∧ (∃ c, (addComment (some u) postId text s).2.comments.head? = some c
          ∧ c.text = text ∧ c.author = u ∧ c.post = postId)
    ∧ (addComment (some u) postId text s).1
        = Response.redirect (Route.postDetail postId) := by
  simp [addComment, hpost, htext]

/-- C3 witness: the theorem applied at a concrete valid comment. -/
theorem c3_add_comment_valid_witness :
    (addComment (some 2) 1 "a comment" sampleState).2.comments.length
        = sampleState.comments.length + 1
    ∧ (∃ c, (addComment (some 2) 1 "a comment" sampleState).2.comments.head?
              = some c
          ∧ c.text = "a comment" ∧ c.author = 2 ∧ c.post = 1)
    ∧ (addComment (some 2) 1 "a comment" sampleState).1
        = Response.redirect (Route.postDetail 1) :=
  c3_add_comment_valid 2 1 "a comment" sampleState (by decide) (by decide)

/-- C4: editing a Post is authorized only for its author.  The author
submitting valid text gets redirected to the detail page and the Post's
record now carries the submitted text; any other authenticated user hitting
the edit route is redirected to the detail page with the whole state (hence
every field of the Post) unchanged. -/
theorem c4_edit_author_only (s : BlogState) (postId : Nat) (p : Post)
    (u : Nat) (text : String) (g : Option Nat)
    (hfind : s.posts.find? (fun q => q.id == postId) = some p)
    (htext : text ≠ "") (hu : u ≠ p.author) :
    (editPost (some p.author) postId text g s).1
        = Response.redirect (Route.postDetail postId)
    ∧ (editPost (some p.author) postId text g s).2.posts.find?
          (fun q => q.id == postId)
        = some { p with text := text, group := g }
    ∧ editPost (some u) postId text g s
        = (Response.redirect (Route.postDetail postId), s) := by
  have hpid : (p.id == postId) = true :=
    @List.find?_some Post (fun q : Post => q.id == postId) p s.posts hfind
  refine ⟨?_, ?_, ?_⟩
  · simp [editPost, hfind, htext]
  · have hmap := find_map_of_update s.posts postId p
      (fun q => if q.id == postId then { q with text := text, group := g }
                else q)
      (fun q => by by_cases hq : (q.id == postId) = true <;> simp [hq]) hfind
    simp only [hpid, if_true] at hmap
    simpa [editPost, hfind, htext] using hmap
  · simp [editPost, hfind, Ne.symm hu]

/-- C4 witness: the theorem applied at the sample state, author 1 editing
post 1 and non-author 2 being turned away. -/
theorem c4_edit_author_only_witness :
    (editPost (some samplePost.author) 1 "edited" (some 1) sampleState).1
        = Response.redirect (Route.postDetail 1)
    ∧ (editPost (some samplePost.author) 1 "edited" (some 1)
          sampleState).2.posts.find? (fun q => q.id == 1)
        = some { samplePost with text := "edited", group := some 1 }
    ∧ editPost (some 2) 1 "edited" (some 1) sampleState
        = (Response.redirect (Route.postDetail 1), sampleState) :=
  c4_edit_author_only sampleState 1 samplePost 2 "edited" (some 1)
    (by decide) (by decide) (by decide)

/-- C5: after user `u` follows author `a`, every Post authored by `a` is in
`u`'s follow feed; and a user `v` who follows nobody has an empty follow
feed even when Posts by unrelated authors exist. -/
theorem c5_follow_feed (s : BlogState) (u a v : Nat) (p : Post)
    (hp : p ∈ s.posts) (hpa : p.author = a)
    (hv : ∀ f ∈ s.follows, f.user ≠ v) :
    p ∈ followFeed u (profileFollow (some u) a s).2
    ∧ followFeed v s = [] := by
  constructor
  · simp only [profileFollow, followFeed]
    refine List.mem_filter.mpr ⟨hp, ?_⟩
    simp [hpa]
  · refine List.filter_eq_nil_iff.mpr ?_
    intro q _ hq
    rw [List.any_eq_true] at hq
    obtain ⟨f, hf, hfv⟩ := hq
    simp only [Bool.and_eq_true, beq_iff_eq] at hfv
    exact hv f hf hfv.1

/-- C5 witness: the theorem applied with user 2 following author 1 in the
sample state, and user 2 (following nobody there) having an empty feed. -/
theorem c5_follow_feed_witness :
    samplePost ∈ followFeed 2 (profileFollow (some 2) 1 sampleState).2
    ∧ followFeed 2 sampleState = [] :=
  c5_follow_feed sampleState 2 1 2 samplePost (by decide) (by decide)
    (by decide)

/-- C6: `profile_follow` adds exactly one Follow edge (user, author) and
redirects to the author's profile; `profile_unfollow` removes exactly the
corresponding edges and redirects likewise; following then unfollowing a
pair not previously present restores the state (hence the Follow set and
its count) exactly. -/
theorem c6_follow_unfollow (s : BlogState) (u a : Nat)
    (hnew : (⟨u, a⟩ : Follow) ∉ s.follows) :
    (profileFollow (some u) a s).2.follows.length = s.follows.length + 1
    ∧ (profileFollow (some u) a s).2.follows.head? = some ⟨u, a⟩
    ∧ (profileFollow (some u) a s).1 = Response.redirect (Route.profile a)
    ∧ (profileUnfollow (some u) a s).1 = Response.redirect (Route.profile a)
    ∧ (∀ f, f ∈ (profileUnfollow (some u) a s).2.follows
          ↔ f ∈ s.follows ∧ ¬(f.user = u ∧ f.author = a))
    ∧ (profileUnfollow (some u) a (profileFollow (some u) a s).2).2 = s := by
  refine ⟨by simp [profileFollow], rfl, rfl, rfl, ?_, ?_⟩
  · intro f
    constructor
    · intro hmem
      obtain ⟨h1, h2⟩ := List.mem_filter.mp hmem
      refine ⟨h1, ?_⟩
      rintro ⟨hfu, hfa⟩
      simp [hfu, hfa] at h2
    · rintro ⟨h1, h2⟩
      refine List.mem_filter.mpr ⟨h1, ?_⟩
      by_cases hfu : f.user = u
      · by_cases hfa : f.author = a
        · exact absurd ⟨hfu, hfa⟩ h2
        · simp [hfa]
      · simp [hfu]
  · simp only [profileFollow, profileUnfollow]
    have h1 : List.filter (fun f => !(f.user == u && f.author == a))
        ((⟨u, a⟩ : Follow) :: s.follows) = s.follows := by
      rw [List.filter_cons, if_neg (by simp)]
      refine List.filter_eq_self.mpr ?_
      intro f hf
      cases f with
      | mk fu fa =>
        by_cases hfu : fu = u
        · by_cases hfa : fa = a
          · subst hfu; subst hfa; exact absurd hf hnew
          · simp [hfa]
        · simp [hfu]
    rw [h1]

/-- C6 witness: the theorem applied at the sample state (no prior follow
edges). -/
theorem c6_follow_unfollow_witness :
    (profileFollow (some 2) 1 sampleState).2.follows.length
        = sampleState.follows.length + 1
    ∧ (profileFollow (some 2) 1 sampleState).2.follows.head? = some ⟨2, 1⟩
    ∧ (profileFollow (some 2) 1 sampleState).1
        = Response.redirect (Route.profile 1)
    ∧ (profileUnfollow (some 2) 1 sampleState).1
        = Response.redirect (Route.profile 1)
    ∧ (∀ f, f ∈ (profileUnfollow (some 2) 1 sampleState).2.follows
          ↔ f ∈ sampleState.follows ∧ ¬(f.user = 2 ∧ f.author = 1))
    ∧ (profileUnfollow (some 2) 1 (profileFollow (some 2) 1 sampleState).2).2
        = sampleState :=
  c6_follow_unfollow sampleState 2 1 (by decide)

/-- C7: within the 20-second cache window a second index request returns the
cached content even though a Post was deleted in between; after manual cache
invalidation the next request's content differs, reflecting the deletion of
a Post that was on the cached page. -/
theorem c7_index_cache (s : BlogState) (p : Post) (t1 t2 t3 : Nat)
    (hp : p ∈ renderIndex s) (hwin : t2 < t1 + CACHE_TIMEOUT) :
    (getIndex t2 (getIndex t1 cacheClear s).2 (deletePost p.id s)).1
        = (getIndex t1 cacheClear s).1
    ∧ (getIndex t3 cacheClear (deletePost p.id s)).1
        ≠ (getIndex t1 cacheClear s).1 := by
  constructor
  · simp [getIndex, cacheClear, hwin]
  · simp only [getIndex, cacheClear]
    intro hEq
    have hp' : p ∈ renderIndex (deletePost p.id s) := hEq ▸ hp
    have hmem : p ∈ (deletePost p.id s).posts :=
      paginate_subset _ _ hp'
    simp only [deletePost] at hmem
    have hf := (List.mem_filter.mp hmem).2
    simp at hf

/-- C7 witness: the theorem applied at the sample state, deleting the only
post between a request at second 0 and one at second 5, then one at second
30 after invalidation. -/
theorem c7_index_cache_witness :
    (getIndex 5 (getIndex 0 cacheClear sampleState).2
        (deletePost samplePost.id sampleState)).1
      = (getIndex 0 cacheClear sampleState).1
    ∧ (getIndex 30 cacheClear (deletePost samplePost.id sampleState)).1
      ≠ (getIndex 0 cacheClear sampleState).1 :=
  c7_index_cache sampleState samplePost 0 5 30 (by decide) (by decide)

/-- C8: deleting a Group deletes no Post — each former member survives with
its group reference nulled and every other field unchanged — and deleting a
Post deletes exactly the Comments attached to it: none attached survive,
and every Comment attached elsewhere survives. -/
theorem c8_delete_group_and_post (s : BlogState) (gid pid : Nat) (p : Post)
    (c : Comment) (hp : p ∈ s.posts) (hc : c ∈ s.comments)
    (hcp : c.post ≠ pid) :
    (deleteGroup gid s).posts.length = s.posts.length
    ∧ (∃ p', p' ∈ (deleteGroup gid s).posts ∧ p'.id = p.id
          ∧ p'.text = p.text ∧ p'.author = p.author ∧ p'.image = p.image
          ∧ p'.created = p.created
          ∧ p'.group = (if p.group = some gid then none else p.group))
    ∧ (∀ c', c' ∈ (deletePost pid s).comments → c'.post ≠ pid)
    ∧ c ∈ (deletePost pid s).comments := by
  refine ⟨by simp [deleteGroup], ?_, ?_, ?_⟩
  · refine ⟨_, List.mem_map_of_mem _ hp, ?_⟩
    by_cases hg : p.group = some gid <;> simp [hg]
  · intro c' hc'
    have hf := (List.mem_filter.mp hc').2
    simpa using hf
  · exact List.mem_filter.mpr ⟨hc, by simpa using hcp⟩

/-- C8 witness: the theorem applied at the sample state, deleting group 1
and post 2 (so the sample post's comment-free survival and comment framing
are concrete). -/
theorem c8_delete_group_and_post_witness :
    (deleteGroup 1 sampleState).posts.length = sampleState.posts.length
    ∧ (∃ p', p' ∈ (deleteGroup 1 sampleState).posts ∧ p'.id = samplePost.id
          ∧ p'.text = samplePost.text ∧ p'.author = samplePost.author
          ∧ p'.image = samplePost.image ∧ p'.created = samplePost.created
          ∧ p'.group
              = (if samplePost.group = some 1 then none else samplePost.group))
    ∧ (∀ c', c' ∈ (deletePost 2 commentState).comments → c'.post ≠ 2)
    ∧ sampleComment ∈ (deletePost 2 commentState).comments :=
  c8_delete_group_and_post commentState 1 2 samplePost sampleComment
    (by decide) (by decide) (by decide)

/-- C10: collections are newest-first.  Immediately after a successful post
creation the new Post is the head of the Post collection and the first entry
of the index listing's first page; immediately after a successful comment
creation the new Comment is the head of the Comment collection. -/
theorem c10_newest_first (u postId : Nat) (text ctext : String)
    (g : Option Nat) (img : Option String) (s : BlogState)
    (htext : text ≠ "") (hctext : ctext ≠ "")
    (hg : ∀ x, g = some x → s.groups.any (fun gr => gr.id == x) = true)
    (hpost : s.posts.any (fun p => p.id == postId) = true) :
    (createPost (some u) text g img s).2.posts.head?
        = some ⟨s.nextId, text, u, g, img, s.nextId⟩
    ∧ (indexPage (createPost (some u) text g img s).2 1).head?
        = some ⟨s.nextId, text, u, g, img, s.nextId⟩
    ∧ (addComment (some u) postId ctext s).2.comments.head?
        = some ⟨s.nextId, ctext, u, postId, s.nextId⟩ := by
  have hcreate : (createPost (some u) text g img s).2.posts
      = ⟨s.nextId, text, u, g, img, s.nextId⟩ :: s.posts := by
    cases g with
    | none => simp [createPost, htext]
    | some x => simp [createPost, htext, hg x rfl]
  refine ⟨?_, ?_, ?_⟩
  · rw [hcreate]; rfl
  · rw [indexPage, hcreate]
    simp [paginate, POSTS_PER_PAGE]
  · simp [addComment, htext, hctext, hpost]

/-- C10 witness: the theorem applied at the sample state with an ungrouped
post and a comment on post 1. -/
theorem c10_newest_first_witness :
    (createPost (some 1) "fresh" none none sampleState).2.posts.head?
        = some ⟨sampleState.nextId, "fresh", 1, none, none, sampleState.nextId⟩
    ∧ (indexPage (createPost (some 1) "fresh" none none sampleState).2 1).head?
        = some ⟨sampleState.nextId, "fresh", 1, none, none, sampleState.nextId⟩
    ∧ (addComment (some 1) 1 "reply" sampleState).2.comments.head?
        = some ⟨sampleState.nextId, "reply", 1, 1, sampleState.nextId⟩ :=
  c10_newest_first 1 1 "fresh" "reply" none none sampleState
    (by decide) (by decide) (fun x hx => nomatch hx) (by decide)

end Yatube
